import Mathlib

/-!
Shallow embedding of the Swap Type plugin (src/main.js): selection-diffing,
common-folder/common-tag computation, refresh state machine, and the swap
controller flow. Pure functions model the source; host effects (getSelected,
folder resolution, swap operation) are passed in as explicit results.
-/

namespace SwapType

/-- An Eagle item: identifier plus optional folder-id and tag collections
(`none` models an absent or null field, as in `item.folders || []`). -/
structure Item where
  id : Nat
  folders : Option (List Nat)
  tags : Option (List String)
deriving DecidableEq

/-- A resolved folder display object, as returned by the host lookup or the
fallback synthesis `\x7b id, name: "Folder " + id \x7d`. -/
structure Folder where
  id : Nat
  name : String
deriving DecidableEq

/-- Embeds `arraysEqual(arr1, arr2)` from src/main.js lines 206-209:
length check then element-wise comparison. -/
def arraysEqual {α : Type} [DecidableEq α] (arr1 arr2 : List α) : Bool :=
  if arr1.length ≠ arr2.length then false
  else (arr1.zip arr2).all (fun p => decide (p.1 = p.2))

/-- Embeds the JavaScript `.sort()` calls on identifier sequences. -/
def sortIds {α : Type} [LinearOrder α] (l : List α) : List α :=
  l.insertionSort (· ≤ ·)

/-- The change test of src/main.js lines 165-171: sort both sequences, then
`!arraysEqual(...)`. -/
def hasChanged {α : Type} [LinearOrder α] (prev curr : List α) : Bool :=
  !(arraysEqual (sortIds prev) (sortIds curr))

/-- The intersection kernel of `findCommonFoldersAndTags` (src/main.js
lines 226-231 and 254-259): `all[0].filter(x => all.every(l => l.includes(x)))`,
with an empty result when the outer list is empty. -/
def commonOf {α : Type} [DecidableEq α] : List (List α) → List α
  | [] => []
  | first :: rest => first.filter (fun x => (first :: rest).all (fun l => decide (x ∈ l)))

/-- The common folder identifiers computed by `findCommonFoldersAndTags`
before host resolution (src/main.js lines 211-231). -/
def findCommonFolderIds (selectedItems : List Item) : List Nat :=
  if selectedItems.length = 0 then []
  else commonOf (selectedItems.map (fun item => item.folders.getD []))

/-- The common tags computed by `findCommonFoldersAndTags`
(src/main.js lines 211-220 and 253-262). -/
def findCommonTags (selectedItems : List Item) : List String :=
  if selectedItems.length = 0 then []
  else commonOf (selectedItems.map (fun item => item.tags.getD []))

/-- Host resolution of common folder ids (src/main.js lines 236-251): call
`eagle.folder.getByIds` (modelled as `resolve`, `none` = throws) when the id
list is non-empty; on failure synthesize fallback objects per id. -/
def resolveCommonFolders (resolve : List Nat → Option (List Folder))
    (commonFolderIds : List Nat) : List Folder :=
  if commonFolderIds.length = 0 then []
  else
    match resolve commonFolderIds with
    | some folders => folders
    | none => commonFolderIds.map (fun id => Folder.mk id ("Folder " ++ toString id))

/-- The commonFolders value stored by `findCommonFoldersAndTags`. -/
def findCommonFolders (selectedItems : List Item)
    (resolve : List Nat → Option (List Folder)) : List Folder :=
  resolveCommonFolders resolve (findCommonFolderIds selectedItems)

/-- The per-batch outcome returned by the host swap operations
(`\x7b success, processedCount, errors \x7d`). -/
structure SwapResult where
  success : Bool
  processedCount : Nat
  errors : List String
deriving DecidableEq

/-- Observable steps of a swap-controller invocation. -/
inductive SwapEvent where
  | showLoading
  | invokeHostOp
  | alertMsg (msg : String)
  | triggerRefresh
deriving DecidableEq

/-- The success alert of `swapTagToFolder` (src/main.js line 361). -/
def tagSwapSuccessMessage (tagName : String) (processedCount : Nat) : String :=
  "Swap Complete: Successfully moved " ++ toString processedCount ++
    " items to folder \"" ++ tagName ++ "\" and removed \"" ++ tagName ++ "\" tag."

/-- The success alert of `swapFolderToTag` (src/main.js line 390). -/
def folderSwapSuccessMessage (folderName : String) (processedCount : Nat) : String :=
  "Swap Complete: Successfully moved " ++ toString processedCount ++
    " items from folder \"" ++ folderName ++ "\" and added \"" ++ folderName ++ "\" as a tag."

/-- The partial-failure alert shared by both swap handlers
(src/main.js lines 363 and 392): count of errors, first three messages,
truncation marker. -/
def swapErrorMessage (processedCount : Nat) (errors : List String) : String :=
  "Swap Completed with Errors: Processed " ++ toString processedCount ++
    " items successfully, but encountered " ++ toString errors.length ++ " errors:\n\n" ++
    String.intercalate "\n" (errors.take 3) ++
    (if errors.length > 3 then "\n..." else "")

/-- The total-failure alert of `swapTagToFolder` (src/main.js line 371). -/
def tagSwapFailedMessage (errMsg : String) : String :=
  "Swap Failed: Failed to swap tag to folder: " ++ errMsg

/-- The total-failure alert of `swapFolderToTag` (src/main.js line 400). -/
def folderSwapFailedMessage (errMsg : String) : String :=
  "Swap Failed: Failed to swap folder to tag: " ++ errMsg

/-- Embeds `swapTagToFolder` (src/main.js lines 346-373) as the sequence of
observable steps it performs, given the host operation outcome (`Except.error`
models a thrown exception / rejection). `tagName = ""` models the falsy guard
`if (!tagName) return`. -/
def swapTagToFolder (tagName : String) (opResult : Except String SwapResult) :
    List SwapEvent :=
  if tagName = "" then []
  else
    match opResult with
    | Except.ok result =>
        [SwapEvent.showLoading, SwapEvent.invokeHostOp,
         SwapEvent.alertMsg
           (if result.success then tagSwapSuccessMessage tagName result.processedCount
            else swapErrorMessage result.processedCount result.errors),
         SwapEvent.triggerRefresh]
    | Except.error e =>
        [SwapEvent.showLoading, SwapEvent.invokeHostOp,
         SwapEvent.alertMsg (tagSwapFailedMessage e)]

/-- Embeds `swapFolderToTag` (src/main.js lines 375-402); `none` models the
falsy guard `if (!folder) return`. -/
def swapFolderToTag (folder : Option Folder) (opResult : Except String SwapResult) :
    List SwapEvent :=
  match folder with
  | none => []
  | some f =>
    match opResult with
    | Except.ok result =>
        [SwapEvent.showLoading, SwapEvent.invokeHostOp,
         SwapEvent.alertMsg
           (if result.success then folderSwapSuccessMessage f.name result.processedCount
            else swapErrorMessage result.processedCount result.errors),
         SwapEvent.triggerRefresh]
    | Except.error e =>
        [SwapEvent.showLoading, SwapEvent.invokeHostOp,
         SwapEvent.alertMsg (folderSwapFailedMessage e)]

/-- The module-level mutable state of the plugin (src/main.js lines 11-14). -/
structure AnalyzerState where
  selectedItems : List Item
  commonFolders : List Folder
  commonTags : List String
  isRefreshing : Bool
deriving DecidableEq

/-- Observable steps of one `refreshData` invocation. -/
inductive RefreshEvent where
  | skippedBusy
  | fetchError (e : String)
  | skippedNoChange
  | displayNoSelection
  | recompute
  | displayFolders
  | displayTags
deriving DecidableEq

/-- Embeds `refreshData` (src/main.js lines 108-204) as a state transition.
`fetch` is the result of `eagle.item.getSelected()` (`Except.error` = throws;
`Option` inside models `selection || []`); `resolve` is the folder lookup.
The `finally` block always resets `isRefreshing` on every completed path. -/
def refreshData (st : AnalyzerState) (fetch : Except String (Option (List Item)))
    (resolve : List Nat → Option (List Folder)) : AnalyzerState × List RefreshEvent :=
  if st.isRefreshing then (st, [RefreshEvent.skippedBusy])
  else
    match fetch with
    | Except.error e =>
        (AnalyzerState.mk st.selectedItems st.commonFolders st.commonTags false,
         [RefreshEvent.fetchError e])
    | Except.ok selection =>
        let newSelectedItems := selection.getD []
        let oldIds := sortIds (st.selectedItems.map Item.id)
        let newIds := sortIds (newSelectedItems.map Item.id)
        let selectionChanged := !(arraysEqual oldIds newIds)
        if !selectionChanged then
          (AnalyzerState.mk st.selectedItems st.commonFolders st.commonTags false,
           [RefreshEvent.skippedNoChange])
        else if newSelectedItems.length = 0 then
          (AnalyzerState.mk newSelectedItems st.commonFolders st.commonTags false,
           [RefreshEvent.displayNoSelection])
        else
          let previousFolders := st.commonFolders
          let previousTags := st.commonTags
          let newCommonFolders := findCommonFolders newSelectedItems resolve
          let newCommonTags := findCommonTags newSelectedItems
          let foldersChanged :=
            hasChanged (previousFolders.map Folder.id) (newCommonFolders.map Folder.id)
          let tagsChanged := hasChanged previousTags newCommonTags
          (AnalyzerState.mk newSelectedItems newCommonFolders newCommonTags false,
           [RefreshEvent.recompute]
             ++ (if foldersChanged then [RefreshEvent.displayFolders] else [])
             ++ (if tagsChanged then [RefreshEvent.displayTags] else []))

/-- A host folder lookup that always fails (throws). -/
def resolveNone : List Nat → Option (List Folder) := fun _ => none

/-- A concrete analyzer state holding a non-empty prior selection and
non-empty stored common sets. -/
def stStale : AnalyzerState :=
  AnalyzerState.mk [Item.mk 1 (some [1]) (some ["x"])] [Folder.mk 1 "A"] ["x"] false

theorem zip_all_eq {α : Type} [DecidableEq α] :
    ∀ (a b : List α), a.length = b.length →
      (((a.zip b).all fun p => decide (p.1 = p.2)) = true ↔ a = b)
  | [], [], _ => by simp
  | [], _ :: _, h => by simp at h
  | _ :: _, [], h => by simp at h
  | x :: xs, y :: ys, h => by
    have hlen : xs.length = ys.length := by simpa using h
    have ih := zip_all_eq xs ys hlen
    simp [List.zip_cons_cons, List.all_cons, ih]

theorem arraysEqual_eq_true_iff {α : Type} [DecidableEq α] (a b : List α) :
    arraysEqual a b = true ↔ a = b := by
  unfold arraysEqual
  by_cases h : a.length = b.length
  · rw [if_neg (by simpa using h)]
    exact zip_all_eq a b h
  · rw [if_pos h]
    simp only [Bool.false_eq_true, false_iff]
    intro hab
    exact h (congrArg List.length hab)

theorem arraysEqual_self {α : Type} [DecidableEq α] (a : List α) :
    arraysEqual a a = true :=
  (arraysEqual_eq_true_iff a a).mpr rfl

theorem sortIds_perm {α : Type} [LinearOrder α] (l : List α) :
    (sortIds l).Perm l :=
  List.perm_insertionSort _ l

theorem sortIds_eq_iff {α : Type} [LinearOrder α] (a b : List α) :
    sortIds a = sortIds b ↔ a.Perm b := by
  constructor
  · intro h
    have h1 : a.Perm (sortIds a) := (sortIds_perm a).symm
    rw [h] at h1
    exact h1.trans (sortIds_perm b)
  · intro h
    unfold sortIds
    exact List.eq_of_perm_of_sorted
      ((sortIds_perm a).trans (h.trans (sortIds_perm b).symm))
      (List.sorted_insertionSort _ a) (List.sorted_insertionSort _ b)

theorem hasChanged_eq_false_iff {α : Type} [LinearOrder α] (a b : List α) :
    hasChanged a b = false ↔ a.Perm b := by
  unfold hasChanged
  rw [Bool.not_eq_false']
  rw [arraysEqual_eq_true_iff]
  exact sortIds_eq_iff a b

theorem mem_commonOf {α : Type} [DecidableEq α] (first : List α) (rest : List (List α))
    (x : α) : x ∈ commonOf (first :: rest) ↔ ∀ l ∈ first :: rest, x ∈ l := by
  simp only [commonOf, List.mem_filter, List.all_eq_true, decide_eq_true_eq]
  constructor
  · intro h
    exact h.2
  · intro h
    exact ⟨h first (List.mem_cons_self first rest), h⟩

theorem mem_commonOf_map {α β : Type} [DecidableEq β] (f : α → List β)
    (first : α) (rest : List α) (x : β) :
    x ∈ commonOf ((first :: rest).map f) ↔ ∀ a ∈ first :: rest, x ∈ f a := by
  rw [List.map_cons, mem_commonOf]
  constructor
  · intro h a ha
    apply h (f a)
    rcases List.mem_cons.mp ha with h1 | h2
    · subst h1
      exact List.mem_cons_self _ _
    · exact List.mem_cons_of_mem _ (List.mem_map_of_mem _ h2)
  · intro h l hl
    rcases List.mem_cons.mp hl with h1 | h2
    · subst h1
      exact h first (List.mem_cons_self _ _)
    · obtain ⟨a, ha, rfl⟩ := List.mem_map.mp h2
      exact h a (List.mem_cons_of_mem _ ha)

theorem mem_findCommonFolderIds (first : Item) (rest : List Item) (x : Nat) :
    x ∈ findCommonFolderIds (first :: rest) ↔
      ∀ it ∈ first :: rest, x ∈ it.folders.getD [] := by
  unfold findCommonFolderIds
  rw [if_neg (by simp)]
  exact mem_commonOf_map (fun item => item.folders.getD []) first rest x

theorem mem_findCommonTags (first : Item) (rest : List Item) (x : String) :
    x ∈ findCommonTags (first :: rest) ↔
      ∀ it ∈ first :: rest, x ∈ it.tags.getD [] := by
  unfold findCommonTags
  rw [if_neg (by simp)]
  exact mem_commonOf_map (fun item => item.tags.getD []) first rest x

theorem findCommonFolderIds_cons (first : Item) (rest : List Item) :
    findCommonFolderIds (first :: rest) =
      (first.folders.getD []).filter (fun x =>
        ((first.folders.getD []) :: rest.map (fun item => item.folders.getD [])).all
          (fun l => decide (x ∈ l))) := by
  unfold findCommonFolderIds
  rw [if_neg (by simp)]
  rw [List.map_cons]
  rfl

theorem findCommonTags_cons (first : Item) (rest : List Item) :
    findCommonTags (first :: rest) =
      (first.tags.getD []).filter (fun x =>
        ((first.tags.getD []) :: rest.map (fun item => item.tags.getD [])).all
          (fun l => decide (x ∈ l))) := by
  unfold findCommonTags
  rw [if_neg (by simp)]
  rw [List.map_cons]
  rfl

/-- C1: for every non-empty selection, the computed common folder identifiers
are exactly the set intersection of the items' folder collections (membership
in the result iff membership in every selected item's collection), and the
same holds for the computed common tags over the tag collections. -/
theorem findCommon_is_intersection (items : List Item) (h : items ≠ []) :
    (∀ id : Nat, id ∈ findCommonFolderIds items ↔
        ∀ it ∈ items, id ∈ it.folders.getD []) ∧
    (∀ t : String, t ∈ findCommonTags items ↔
        ∀ it ∈ items, t ∈ it.tags.getD []) := by
  cases items with
  | nil => exact absurd rfl h
  | cons first rest =>
    exact ⟨fun id => mem_findCommonFolderIds first rest id,
           fun t => mem_findCommonTags first rest t⟩

/-- Witness for C1 at the spec scenario: items with folders [1,2] and [2,3]
share folder 2. -/
theorem findCommon_is_intersection_witness :
    2 ∈ findCommonFolderIds
        [Item.mk 1 (some [1, 2]) (some ["x"]), Item.mk 2 (some [2, 3]) (some ["x", "y"])] := by
  have h := findCommon_is_intersection
    [Item.mk 1 (some [1, 2]) (some ["x"]), Item.mk 2 (some [2, 3]) (some ["x", "y"])]
    (by decide)
  exact (h.1 2).mpr (by decide)

/-- C9: an item whose folders or tags field is absent (null) is treated as
having the empty collection, so whenever any selected item lacks the field the
corresponding common collection is empty. -/
theorem missing_field_gives_empty (items : List Item) (it : Item) (hmem : it ∈ items) :
    (it.folders = none → findCommonFolderIds items = []) ∧
    (it.tags = none → findCommonTags items = []) := by
  cases items with
  | nil => cases hmem
  | cons first rest =>
    constructor
    · intro hf
      rw [List.eq_nil_iff_forall_not_mem]
      intro x hx
      have hx' := (mem_findCommonFolderIds first rest x).mp hx it hmem
      simp [hf] at hx'
    · intro ht
      rw [List.eq_nil_iff_forall_not_mem]
      intro x hx
      have hx' := (mem_findCommonTags first rest x).mp hx it hmem
      simp [ht] at hx'

/-- Witness for C9: second item has no folders field, so the common folder
ids are empty. -/
theorem missing_field_gives_empty_witness :
    findCommonFolderIds [Item.mk 1 (some [5]) (some ["a"]), Item.mk 2 none (some ["a"])] = [] := by
  have h := missing_field_gives_empty
    [Item.mk 1 (some [5]) (some ["a"]), Item.mk 2 none (some ["a"])]
    (Item.mk 2 none (some ["a"])) (by decide)
  exact h.1 rfl

/-- C10: the computed common folder ids and common tags are in-order
sub-lists of the first item's respective collection, and every retained
value keeps the multiplicity it has in the first item's collection. -/
theorem common_preserves_first_order (first : Item) (rest : List Item) :
    (findCommonFolderIds (first :: rest)).Sublist (first.folders.getD []) ∧
    (findCommonTags (first :: rest)).Sublist (first.tags.getD []) ∧
    (∀ x : Nat, x ∈ findCommonFolderIds (first :: rest) →
      (findCommonFolderIds (first :: rest)).count x = (first.folders.getD []).count x) ∧
    (∀ t : String, t ∈ findCommonTags (first :: rest) →
      (findCommonTags (first :: rest)).count t = (first.tags.getD []).count t) := by
  refine ⟨?_, ?_, ?_, ?_⟩
  · rw [findCommonFolderIds_cons]
    exact List.filter_sublist _
  · rw [findCommonTags_cons]
    exact List.filter_sublist _
  · intro x hx
    rw [findCommonFolderIds_cons] at hx ⊢
    exact List.count_filter (List.mem_filter.mp hx).2
  · intro t ht
    rw [findCommonTags_cons] at ht ⊢
    exact List.count_filter (List.mem_filter.mp ht).2

/-- Witness for C10: first item's folders [2,2,1] against [2,5]: the common
ids keep both copies of 2 in order. -/
theorem common_preserves_first_order_witness :
    (findCommonFolderIds
        [Item.mk 1 (some [2, 2, 1]) (some ["a", "a"]), Item.mk 2 (some [2, 5]) (some ["a"])]).count 2 =
      ([2, 2, 1] : List Nat).count 2 := by
  have h := common_preserves_first_order
    (Item.mk 1 (some [2, 2, 1]) (some ["a", "a"])) [Item.mk 2 (some [2, 5]) (some ["a"])]
  exact h.2.2.1 2 (by decide)

/-- C2 counterexample: [1,1] and [1] are equal as sets, yet the change test
on the sorted sequences reports a change, so the test does not coincide with
set inequality. -/
theorem hasChanged_set_counterexample :
    hasChanged [1, 1] ([1] : List Nat) = true ∧
      ([1, 1] : List Nat).toFinset = ([1] : List Nat).toFinset := by
  decide

/-- C2 amended: the change test (arraysEqual after sorting both sequences)
reports a change iff the sequences differ as multisets, i.e. are not
reorderings of each other; it is symmetric in its arguments and reports no
change when one argument is a reordering of the other. -/
theorem hasChanged_multiset_spec {α : Type} [LinearOrder α] (a b : List α) :
    (hasChanged a b = true ↔ ¬ a.Perm b) ∧
    hasChanged a b = hasChanged b a ∧
    (a.Perm b → hasChanged a b = false) := by
  have hiff : hasChanged a b = false ↔ a.Perm b := hasChanged_eq_false_iff a b
  have hiff2 : hasChanged b a = false ↔ b.Perm a := hasChanged_eq_false_iff b a
  refine ⟨⟨?_, ?_⟩, ?_, fun hp => hiff.mpr hp⟩
  · intro ht hp
    rw [hiff.mpr hp] at ht
    exact Bool.noConfusion ht
  · intro hnp
    cases hhab : hasChanged a b with
    | false => exact absurd (hiff.mp hhab) hnp
    | true => rfl
  · cases hhab : hasChanged a b with
    | false => rw [hiff2.mpr (hiff.mp hhab).symm]
    | true =>
      cases hhba : hasChanged b a with
      | false =>
        rw [hiff.mpr (hiff2.mp hhba).symm] at hhab
        exact Bool.noConfusion hhab
      | true => rfl

/-- Witness for C2 amended: reordering [1,2] to [2,1] is no change. -/
theorem hasChanged_multiset_spec_witness :
    hasChanged ([1, 2] : List Nat) [2, 1] = false := by
  have h := hasChanged_multiset_spec ([1, 2] : List Nat) [2, 1]
  exact h.2.2 (by decide)

/-- C5: when the host folder lookup fails, every surviving identifier id is
resolved to the fallback display object (id, "Folder " + id), so the result
is never an error; in particular id 7 yields (7, "Folder 7"). -/
theorem resolve_failure_fallback (resolve : List Nat → Option (List Folder))
    (ids : List Nat) (hfail : resolve ids = none) :
    resolveCommonFolders resolve ids =
      ids.map (fun id => Folder.mk id ("Folder " ++ toString id)) ∧
    (7 ∈ ids → Folder.mk 7 "Folder 7" ∈ resolveCommonFolders resolve ids) := by
  have hmain : resolveCommonFolders resolve ids =
      ids.map (fun id => Folder.mk id ("Folder " ++ toString id)) := by
    unfold resolveCommonFolders
    by_cases hlen : ids.length = 0
    · rw [if_pos hlen, List.length_eq_zero.mp hlen]
      rfl
    · rw [if_neg hlen, hfail]
  refine ⟨hmain, fun h7 => ?_⟩
  rw [hmain]
  have h77 : Folder.mk 7 "Folder 7" =
      (fun id => Folder.mk id ("Folder " ++ toString id)) 7 := rfl
  rw [h77]
  exact List.mem_map_of_mem _ h7

/-- Witness for C5: a lookup that always fails on ids [7] yields the
fallback object (7, "Folder 7"). -/
theorem resolve_failure_fallback_witness :
    Folder.mk 7 "Folder 7" ∈ resolveCommonFolders resolveNone [7] := by
  have h := resolve_failure_fallback resolveNone [7] rfl
  exact h.2 (by decide)

theorem AnalyzerState.eta_false (st : AnalyzerState) (h : st.isRefreshing = false) :
    AnalyzerState.mk st.selectedItems st.commonFolders st.commonTags false = st := by
  cases st
  simp_all

/-- C4: whenever the host swap operation returns an outcome, both controller
handlers surface that outcome in an alert built from it (success or partial
failure alike) and then trigger a refresh, with exactly one host-operation
invocation and no further steps (no retry, no rollback). -/
theorem swap_outcome_surfaced (tagName : String) (f : Folder) (result : SwapResult)
    (hname : tagName ≠ "") :
    swapTagToFolder tagName (Except.ok result) =
      [SwapEvent.showLoading, SwapEvent.invokeHostOp,
       SwapEvent.alertMsg
         (if result.success then tagSwapSuccessMessage tagName result.processedCount
          else swapErrorMessage result.processedCount result.errors),
       SwapEvent.triggerRefresh] ∧
    swapFolderToTag (some f) (Except.ok result) =
      [SwapEvent.showLoading, SwapEvent.invokeHostOp,
       SwapEvent.alertMsg
         (if result.success then folderSwapSuccessMessage f.name result.processedCount
          else swapErrorMessage result.processedCount result.errors),
       SwapEvent.triggerRefresh] := by
  constructor
  · unfold swapTagToFolder
    rw [if_neg hname]
  · rfl

/-- Witness for C4 at the spec scenario: tag "x", outcome success=false,
processedCount=1, one error message; the alert carries the outcome and a
refresh follows. -/
theorem swap_outcome_surfaced_witness :
    swapTagToFolder "x" (Except.ok (SwapResult.mk false 1 ["B failed: locked"])) =
      [SwapEvent.showLoading, SwapEvent.invokeHostOp,
       SwapEvent.alertMsg (swapErrorMessage 1 ["B failed: locked"]),
       SwapEvent.triggerRefresh] := by
  have h := swap_outcome_surfaced "x" (Folder.mk 1 "A")
    (SwapResult.mk false 1 ["B failed: locked"]) (by decide)
  simpa using h.1

/-- C6: if fetching the selection fails, the refresh cycle aborts with the
analyzer state unchanged, the error being the only observable step, and the
refreshing flag ends false so later refreshes can proceed. -/
theorem fetch_failure_aborts (st : AnalyzerState) (e : String)
    (resolve : List Nat → Option (List Folder)) (hflag : st.isRefreshing = false) :
    refreshData st (Except.error e) resolve = (st, [RefreshEvent.fetchError e]) := by
  unfold refreshData
  rw [if_neg (by simp [hflag])]
  rw [AnalyzerState.eta_false st hflag]

/-- Witness for C6: a failing fetch on a concrete state returns that state
with only the logged error. -/
theorem fetch_failure_aborts_witness :
    refreshData stStale (Except.error "boom") resolveNone =
      (stStale, [RefreshEvent.fetchError "boom"]) :=
  fetch_failure_aborts stStale "boom" resolveNone rfl

/-- C8: the reentrancy guard: a refresh arriving while one is in flight
returns immediately with the state untouched whatever the fetch would have
produced (the notification is dropped), and every completed cycle, whether
the fetch succeeded or failed, leaves the refreshing flag false. -/
theorem refresh_reentrancy_guard (st : AnalyzerState)
    (fetch : Except String (Option (List Item)))
    (resolve : List Nat → Option (List Folder)) :
    (st.isRefreshing = true →
      refreshData st fetch resolve = (st, [RefreshEvent.skippedBusy])) ∧
    (st.isRefreshing = false →
      (refreshData st fetch resolve).1.isRefreshing = false) := by
  constructor
  · intro h
    unfold refreshData
    rw [if_pos h]
  · intro h
    simp only [refreshData]
    rw [if_neg (by simp [h])]
    split
    · rfl
    · split
      · rfl
      · split
        · rfl
        · rfl

/-- Witness for C8: with the flag set, a refresh is dropped whole. -/
theorem refresh_reentrancy_guard_witness :
    refreshData (AnalyzerState.mk [] [] [] true) (Except.ok none) resolveNone =
      (AnalyzerState.mk [] [] [] true, [RefreshEvent.skippedBusy]) := by
  have h := refresh_reentrancy_guard (AnalyzerState.mk [] [] [] true)
    (Except.ok none) resolveNone
  exact h.1 rfl

/-- C7: when the fetched selection carries the same item identifiers as the
previous one up to reordering, the whole refresh short-circuits: the common
sets are not recomputed and the state, selection and common sets included, is
returned unchanged. -/
theorem selection_unchanged_short_circuits (st : AnalyzerState)
    (sel : Option (List Item)) (resolve : List Nat → Option (List Folder))
    (hflag : st.isRefreshing = false)
    (hperm : ((sel.getD []).map Item.id).Perm (st.selectedItems.map Item.id)) :
    refreshData st (Except.ok sel) resolve = (st, [RefreshEvent.skippedNoChange]) := by
  have heq : sortIds (st.selectedItems.map Item.id) = sortIds ((sel.getD []).map Item.id) :=
    (sortIds_eq_iff _ _).mpr hperm.symm
  simp only [refreshData]
  rw [if_neg (by simp [hflag])]
  rw [heq, arraysEqual_self]
  simp only [Bool.not_true, Bool.not_false]
  rw [if_pos trivial]
  rw [AnalyzerState.eta_false st hflag]

/-- Witness for C7: the same single-item selection fetched again is a
no-change refresh. -/
theorem selection_unchanged_short_circuits_witness :
    refreshData stStale (Except.ok (some [Item.mk 1 (some [1]) (some ["x"])])) resolveNone =
      (stStale, [RefreshEvent.skippedNoChange]) :=
  selection_unchanged_short_circuits stStale (some [Item.mk 1 (some [1]) (some ["x"])])
    resolveNone rfl (by decide)

/-- C3 counterexample: refreshing a state with non-empty stored common sets
against an empty fetched selection empties the selection but leaves the
stored common folders and tags at their previous non-empty values, contrary
to the claim that they are cleared. -/
theorem stale_common_counterexample :
    (refreshData stStale (Except.ok (some [])) resolveNone).1.selectedItems = [] ∧
    (refreshData stStale (Except.ok (some [])) resolveNone).1.commonFolders =
      [Folder.mk 1 "A"] ∧
    (refreshData stStale (Except.ok (some [])) resolveNone).1.commonTags = ["x"] := by
  decide

/-- C3 amended: the computation itself yields empty common folders and tags
on an empty selection, but a refresh that fetches an empty selection returns
after displaying the no-selection message without invoking the computation,
so the stored common sets keep their previous values instead of being
cleared. -/
theorem empty_selection_behavior (st : AnalyzerState)
    (resolve : List Nat → Option (List Folder)) (hflag : st.isRefreshing = false)
    (hne : st.selectedItems ≠ []) :
    findCommonFolderIds [] = [] ∧ findCommonTags [] = [] ∧
    refreshData st (Except.ok (some [])) resolve =
      (AnalyzerState.mk [] st.commonFolders st.commonTags false,
       [RefreshEvent.displayNoSelection]) := by
  refine ⟨rfl, rfl, ?_⟩
  have hold : sortIds (st.selectedItems.map Item.id) ≠ [] := by
    intro h0
    have hp := sortIds_perm (st.selectedItems.map Item.id)
    rw [h0] at hp
    exact hne (List.map_eq_nil_iff.mp (hp.symm.eq_nil))
  have hae : arraysEqual (sortIds (st.selectedItems.map Item.id))
      (sortIds ((([] : List Item)).map Item.id)) = false := by
    cases hx : arraysEqual (sortIds (st.selectedItems.map Item.id))
        (sortIds ((([] : List Item)).map Item.id)) with
    | false => rfl
    | true => exact absurd ((arraysEqual_eq_true_iff _ _).mp hx) hold
  simp only [refreshData]
  rw [if_neg (by simp [hflag])]
  simp only [Option.getD_some]
  rw [hae]
  rfl

/-- Witness for C3 amended: refreshing the stale state against an empty
selection keeps the stored common sets. -/
theorem empty_selection_behavior_witness :
    refreshData stStale (Except.ok (some [])) resolveNone =
      (AnalyzerState.mk [] [Folder.mk 1 "A"] ["x"] false,
       [RefreshEvent.displayNoSelection]) := by
  have h := empty_selection_behavior stStale resolveNone rfl (by decide)
  exact h.2.2

end SwapType
